import Mathlib

/-
Shallow embedding of src/create_test_users.py.

The script drives up to three HTTP POST calls per identity (user creation,
login, profile creation) and keeps four pieces of mutable state on the
CreateTestUsers object: the counters users_created, profiles_created and
failed, and the list errors of (email, message) pairs.  The network is
modelled as an oracle assigning to each loop index the outcome of each of
the three possible requests; an outcome is either a raised exception
(requests.RequestException or any other Exception, which the script
handles identically, carrying str(e)) or a response with a status code,
a text body, and the result of parsing the body as JSON (parsing happens
only on 2xx paths and can itself raise, modelled by the Except inside the
response).  Every requests.post call is additionally recorded in a call
trace so that theorems can speak about which requests are issued.
Logging (log_line) and sleeping (wait) only perform output or delay and
touch no state, so they are not modelled.
-/

namespace TestUserCreator

/-- JSON values, as produced by response.json(). -/
inductive Json where
  | null
  | bool (b : Bool)
  | num (n : Int)
  | str (s : String)
  | arr (elems : List Json)
  | obj (fields : List (String × Json))

/-- Python truthiness of a JSON value, as tested by the checks
`if not user_id:` and `if access:` in the script. -/
def Json.truthy : Json → Bool
  | .null => false
  | .bool b => b
  | .num n => n != 0
  | .str s => s != ""
  | .arr elems => !elems.isEmpty
  | .obj fields => !fields.isEmpty

/-- First binding of a key in an association list of JSON object fields. -/
def lookupField : List (String × Json) → String → Option Json
  | [], _ => none
  | (k, v) :: rest, key => if k == key then some v else lookupField rest key

/-- Python dict.get(key) with default None; raises AttributeError when the
receiver is not a dict. -/
def pyGet : Json → String → Except String Json
  | .obj fields, key => .ok ((lookupField fields key).getD .null)
  | _, _ => .error "AttributeError"

/-- Python dict.get(key, default); raises AttributeError when the receiver
is not a dict. -/
def pyGetD : Json → String → Json → Except String Json
  | .obj fields, key, dflt => .ok ((lookupField fields key).getD dflt)
  | _, _, _ => .error "AttributeError"

/-- Whether the first list is an initial segment of the second. -/
def startsWithList : List Char → List Char → Bool
  | [], _ => true
  | _ :: _, [] => false
  | p :: ps, c :: cs => p == c && startsWithList ps cs

/-- Whether pat occurs as a contiguous segment of s. -/
def containsList (s pat : List Char) : Bool :=
  match s with
  | [] => pat.isEmpty
  | c :: rest => startsWithList pat (c :: rest) || containsList rest pat

/-- Python substring membership test: pat in s. -/
def strContains (s pat : String) : Bool :=
  containsList s.toList pat.toList

/-- Python str.lower(): lowercase the string character by character. -/
def strLower (s : String) : String :=
  String.mk (s.toList.map Char.toLower)

/-- Outcome of one requests.post call: either a raised exception carrying
str(e), or a response with status_code, text, and the JSON parse of the
body (an Except, since response.json() itself can raise). -/
inductive Transport where
  | exn (msg : String)
  | resp (status : Nat) (text : String) (body : Except String Json)

/-- One recorded requests.post call, with the request payload that the
script sends (for user creation the username field duplicates the email). -/
inductive CallEvent where
  | user (email : String) (password : String)
  | login (email : String) (password : String)
  | profile (userId : Json) (token : Json)

def CallEvent.isUser : CallEvent → Bool
  | .user _ _ => true
  | _ => false

def CallEvent.isLogin : CallEvent → Bool
  | .login _ _ => true
  | _ => false

def CallEvent.isProfile : CallEvent → Bool
  | .profile _ _ => true
  | _ => false

/-- The network oracle: the outcome of each of the three possible requests
for the identity at loop index i.  The request payloads are determined by
the index and by the preceding responses, so indexing the oracle by the
loop index loses no generality. -/
structure Env where
  userResp : Int → Transport
  loginResp : Int → Transport
  profileResp : Int → Transport

/-- The configurable options block at the top of the script. -/
structure Config where
  email_prefix : String
  domain : String
  password : String
  unique_passwords : Bool
  create_profiles : Bool
  use_login_token : Bool
  start : Int
  count : Int

/-- The mutable state of a CreateTestUsers object (users_created,
profiles_created, failed, errors), extended with the trace of issued
requests.post calls. -/
structure RunState where
  users_created : Nat
  profiles_created : Nat
  failed : Nat
  errors : List (String × String)
  calls : List CallEvent

/-- State after CreateTestUsers.__init__. -/
def initState : RunState :=
  { users_created := 0, profiles_created := 0, failed := 0, errors := [], calls := [] }

/-- The recurring failure bookkeeping: self.failed += 1 followed by
self.errors.append((email, msg)). -/
def recordFail (st : RunState) (email msg : String) : RunState :=
  { st with failed := st.failed + 1, errors := st.errors ++ [(email, msg)] }

/-- short_text: truncate text to limit characters with a trailing ellipsis
when longer, literally text if len(text) <= limit else text[:limit] + "...". -/
def short_text (text : String) (limit : Nat) : String :=
  if text.length ≤ limit then text else String.mk (text.toList.take limit) ++ "..."

/-- Email derived for loop index i: f-string EMAIL_PREFIX i @ DOMAIN. -/
def emailOf (cfg : Config) (i : Int) : String :=
  cfg.email_prefix ++ toString i ++ "@" ++ cfg.domain

/-- Password derived for loop index i: PASSWORD with the index appended
when UNIQUE_PASSWORDS, else PASSWORD itself. -/
def passwordOf (cfg : Config) (i : Int) : String :=
  if cfg.unique_passwords then cfg.password ++ toString i else cfg.password

/-- login_user(email, password): one POST to LOGIN_API_URL; on 200/201
reads data.get("result", dict()).get("access"); a truthy access token is
returned; every other outcome increments failed, appends
(email, response.text) or (email, str(e)) and returns None. -/
def login_user (t : Transport) (email password : String) (st : RunState) :
    Option Json × RunState :=
  let st0 := { st with calls := st.calls ++ [CallEvent.login email password] }
  match t with
  | .exn e => (none, recordFail st0 email e)
  | .resp status text body =>
    if status == 200 || status == 201 then
      match body with
      | .error e => (none, recordFail st0 email e)
      | .ok data =>
        match pyGetD data "result" (Json.obj []) with
        | .error e => (none, recordFail st0 email e)
        | .ok result =>
          match pyGet result "access" with
          | .error e => (none, recordFail st0 email e)
          | .ok access =>
            if access.truthy then (some access, st0)
            else (none, recordFail st0 email text)
    else (none, recordFail st0 email text)

/-- create_user_profile(user_id, email, access_token): one POST to
PROFILE_API_URL; 200/201 increments profiles_created and returns True;
any other status increments failed and appends (email, "profile: " +
response.text); an exception increments failed and appends (email, str(e)). -/
def create_user_profile (t : Transport) (user_id : Json) (email : String)
    (access_token : Json) (st : RunState) : Bool × RunState :=
  let st0 := { st with calls := st.calls ++ [CallEvent.profile user_id access_token] }
  match t with
  | .exn e => (false, recordFail st0 email e)
  | .resp status text _ =>
    if status == 200 || status == 201 then
      (true, { st0 with profiles_created := st0.profiles_created + 1 })
    else (false, recordFail st0 email ("profile: " ++ text))

/-- The CREATE_PROFILES section of one loop iteration: acquire an access
token, either through login_user (USE_LOGIN_TOKEN) or from the field
"access" of the user-creation result object, then attempt profile
creation; a missing token records a failure and skips to the next
identity.  The read of user_result.get("access") can in principle raise,
which the enclosing except clause of the loop would catch; that path is
unreachable because user_result.get("id") already succeeded, and it is
kept here for faithfulness. -/
def acquireTokenAndProfile (cfg : Config) (env : Env) (i : Int) (email password : String)
    (user_result user_id : Json) (st1 : RunState) : RunState :=
  if cfg.use_login_token then
    match login_user (env.loginResp i) email password st1 with
    | (none, st2) => st2
    | (some access_token, st2) =>
      (create_user_profile (env.profileResp i) user_id email access_token st2).2
  else
    match pyGet user_result "access" with
    | .error e => recordFail st1 email e
    | .ok access_token =>
      if access_token.truthy then
        (create_user_profile (env.profileResp i) user_id email access_token st1).2
      else
        { st1 with failed := st1.failed + 1,
                   errors := st1.errors ++
                     [(email, "Missing access token in creation response")] }

/-- The body of one iteration of the loop in create_test_users: the try
block around the user-creation POST, the 2xx / 400-exists / other-status
branches, and for a created user the optional token acquisition and
profile creation, with both except clauses collapsed into the exception
case of the transport oracle. -/
def processIdentity (cfg : Config) (env : Env) (i : Int) (st : RunState) : RunState :=
  let email := emailOf cfg i
  let password := passwordOf cfg i
  let st0 := { st with calls := st.calls ++ [CallEvent.user email password] }
  match env.userResp i with
  | .exn e => recordFail st0 email e
  | .resp status text body =>
    if status == 200 || status == 201 then
      match body with
      | .error e => recordFail st0 email e
      | .ok result =>
        match pyGetD result "result" (Json.obj []) with
        | .error e => recordFail st0 email e
        | .ok user_result =>
          match pyGet user_result "id" with
          | .error e => recordFail st0 email e
          | .ok user_id =>
            if !user_id.truthy then
              { st0 with failed := st0.failed + 1 }
            else
              let st1 := { st0 with users_created := st0.users_created + 1 }
              if cfg.create_profiles then
                acquireTokenAndProfile cfg env i email password user_result user_id st1
              else st1
    else
      if status == 400 && strContains (strLower text) "exist" then st0
      else recordFail st0 email text

/-- The loop indices range(START, START + COUNT). -/
def runIndices (cfg : Config) : List Int :=
  (List.range cfg.count.toNat).map (fun (k : Nat) => cfg.start + (k : Int))

/-- The whole loop of create_test_users, from a fresh object. -/
def run (cfg : Config) (env : Env) : RunState :=
  (runIndices cfg).foldl (fun st i => processIdentity cfg env i st) initState

/-- The summary dict returned by create_test_users. -/
structure Summary where
  users_created : Nat
  profiles_created : Nat
  failed : Nat
  errors : List (String × String)

def RunState.summary (st : RunState) : Summary :=
  { users_created := st.users_created, profiles_created := st.profiles_created,
    failed := st.failed, errors := st.errors }

/-- create_test_users(): run the loop and return the summary dict. -/
def create_test_users (cfg : Config) (env : Env) : Summary :=
  (run cfg env).summary

/-- The 2xx-with-missing-or-falsy-id branch: the only failure path that
increments failed without appending an error record. -/
def missing_id_case (env : Env) (i : Int) : Bool :=
  match env.userResp i with
  | .exn _ => false
  | .resp status _ body =>
    if status == 200 || status == 201 then
      match body with
      | .error _ => false
      | .ok result =>
        match pyGetD result "result" (Json.obj []) with
        | .error _ => false
        | .ok user_result =>
          match pyGet user_result "id" with
          | .error _ => false
          | .ok user_id => !user_id.truthy
    else false

/-
Concrete configurations and network oracles, used to evaluate the
development on closed inputs.
-/

/-- The configuration at the top of the script, with COUNT reduced to 2. -/
def cfgW : Config :=
  { email_prefix := "testuser", domain := "example.com", password := "testpassword",
    unique_passwords := true, create_profiles := true, use_login_token := true,
    start := 1, count := 2 }

/-- The same configuration with CREATE_PROFILES turned off. -/
def cfgNoProfiles : Config :=
  { cfgW with create_profiles := false }

/-- A network where every request raises a transport exception. -/
def envAllFail : Env :=
  { userResp := fun _ => Transport.exn "connection refused",
    loginResp := fun _ => Transport.exn "connection refused",
    profileResp := fun _ => Transport.exn "connection refused" }

/-- A user-creation response body carrying a usable id. -/
def goodUserBody : Json :=
  Json.obj [("result", Json.obj [("id", Json.num 7)])]

/-- A network where user creation, login and profile creation all succeed. -/
def envAllGood : Env :=
  { userResp := fun _ => Transport.resp 201 "created" (Except.ok goodUserBody),
    loginResp := fun _ => Transport.resp 200 "logged in"
      (Except.ok (Json.obj [("result", Json.obj [("access", Json.str "tok")])])),
    profileResp := fun _ => Transport.resp 201 "profile created" (Except.ok Json.null) }

/-- A response body longer than both display truncation limits. -/
def longText : String := String.mk (List.replicate 250 'a')

/-- A network where identity 1 gets a 2xx creation response without an id
and identity 2 gets a long 500 response. -/
def envMissingIdThenServerError : Env :=
  { userResp := fun i =>
      if i == 1 then
        Transport.resp 200 "created" (Except.ok (Json.obj [("result", Json.obj [])]))
      else Transport.resp 500 longText (Except.ok Json.null),
    loginResp := fun _ => Transport.exn "unused",
    profileResp := fun _ => Transport.exn "unused" }

/-- A network where every creation response is 2xx with an empty result
object, hence no id field. -/
def envMissingId : Env :=
  { userResp := fun _ => Transport.resp 200 "created without id"
      (Except.ok (Json.obj [("result", Json.obj [])])),
    loginResp := fun _ => Transport.exn "unused",
    profileResp := fun _ => Transport.exn "unused" }

/-- A network answering every creation request with the already-exists 400. -/
def envUserExists : Env :=
  { userResp := fun _ => Transport.resp 400 "User already exists" (Except.ok Json.null),
    loginResp := fun _ => Transport.exn "unused",
    profileResp := fun _ => Transport.exn "unused" }

/-- A network where user creation succeeds but login is rejected. -/
def envLoginRejected : Env :=
  { userResp := fun _ => Transport.resp 201 "created" (Except.ok goodUserBody),
    loginResp := fun _ => Transport.resp 401 "invalid credentials" (Except.ok Json.null),
    profileResp := fun _ => Transport.exn "unused" }

/-- A network whose creation responses carry an id field bound to the
integer 0. -/
def envFalsyIdNum : Env :=
  { userResp := fun _ => Transport.resp 200 "created"
      (Except.ok (Json.obj [("result", Json.obj [("id", Json.num 0)])])),
    loginResp := fun _ => Transport.exn "unused",
    profileResp := fun _ => Transport.exn "unused" }

/-- A network whose creation responses carry an id field bound to the
empty string. -/
def envFalsyIdStr : Env :=
  { userResp := fun _ => Transport.resp 200 "created"
      (Except.ok (Json.obj [("result", Json.obj [("id", Json.str "")])])),
    loginResp := fun _ => Transport.exn "unused",
    profileResp := fun _ => Transport.exn "unused" }

/-
Helper lemmas: the effect of each call-making operation on the state is a
componentwise shift, with every appended error record carrying the email
of the identity being processed and every increment of failed matched by
exactly one appended record.
-/

theorem login_user_delta (t : Transport) (email password : String) (st : RunState) :
    ∃ fn : List (String × String),
      (∀ x ∈ fn, x.1 = email) ∧
      (login_user t email password st).2 =
        { users_created := st.users_created,
          profiles_created := st.profiles_created,
          failed := st.failed + fn.length,
          errors := st.errors ++ fn,
          calls := st.calls ++ [CallEvent.login email password] } := by
  cases t with
  | exn e =>
    exact ⟨[(email, e)], by simp, by simp [login_user, recordFail]⟩
  | resp status text body =>
    by_cases hs : (status == 200 || status == 201) = true
    · cases body with
      | error e =>
        exact ⟨[(email, e)], by simp, by simp [login_user, hs, recordFail]⟩
      | ok data =>
        cases hr : pyGetD data "result" (Json.obj []) with
        | error e =>
          exact ⟨[(email, e)], by simp, by simp [login_user, hs, hr, recordFail]⟩
        | ok result =>
          cases ha : pyGet result "access" with
          | error e =>
            exact ⟨[(email, e)], by simp, by simp [login_user, hs, hr, ha, recordFail]⟩
          | ok access =>
            by_cases ht : access.truthy = true
            · exact ⟨[], by simp, by simp [login_user, hs, hr, ha, ht]⟩
            · exact ⟨[(email, text)], by simp,
                by simp [login_user, hs, hr, ha, ht, recordFail]⟩
    · exact ⟨[(email, text)], by simp, by simp [login_user, hs, recordFail]⟩

theorem create_user_profile_delta (t : Transport) (uid : Json) (email : String)
    (tok : Json) (st : RunState) :
    ∃ (fn : List (String × String)) (dp : Nat),
      (∀ x ∈ fn, x.1 = email) ∧
      (create_user_profile t uid email tok st).2 =
        { users_created := st.users_created,
          profiles_created := st.profiles_created + dp,
          failed := st.failed + fn.length,
          errors := st.errors ++ fn,
          calls := st.calls ++ [CallEvent.profile uid tok] } := by
  cases t with
  | exn e =>
    exact ⟨[(email, e)], 0, by simp, by simp [create_user_profile, recordFail]⟩
  | resp status text body =>
    by_cases hs : (status == 200 || status == 201) = true
    · exact ⟨[], 1, by simp, by simp [create_user_profile, hs]⟩
    · exact ⟨[(email, "profile: " ++ text)], 0, by simp,
        by simp [create_user_profile, hs, recordFail]⟩

theorem acquireTokenAndProfile_delta (cfg : Config) (env : Env) (i : Int)
    (email password : String) (user_result user_id : Json) (st : RunState) :
    ∃ (fn : List (String × String)) (dp : Nat) (extra : List CallEvent),
      (∀ x ∈ fn, x.1 = email) ∧
      (∀ c ∈ extra, c.isUser = false) ∧
      acquireTokenAndProfile cfg env i email password user_result user_id st =
        { users_created := st.users_created,
          profiles_created := st.profiles_created + dp,
          failed := st.failed + fn.length,
          errors := st.errors ++ fn,
          calls := st.calls ++ extra } := by
  by_cases hul : cfg.use_login_token = true
  · obtain ⟨fnL, hmL, heqL⟩ := login_user_delta (env.loginResp i) email password st
    rcases hlp : login_user (env.loginResp i) email password st with ⟨o, st2⟩
    rw [hlp] at heqL
    dsimp only at heqL
    subst heqL
    cases o with
    | none =>
      refine ⟨fnL, 0, [CallEvent.login email password], hmL, by simp [CallEvent.isUser], ?_⟩
      simp [acquireTokenAndProfile, hul, hlp]
    | some access_token =>
      obtain ⟨fnP, dpP, hmP, heqP⟩ :=
        create_user_profile_delta (env.profileResp i) user_id email access_token
          { users_created := st.users_created, profiles_created := st.profiles_created,
            failed := st.failed + fnL.length, errors := st.errors ++ fnL,
            calls := st.calls ++ [CallEvent.login email password] }
      refine ⟨fnL ++ fnP, dpP,
        [CallEvent.login email password, CallEvent.profile user_id access_token], ?_, ?_, ?_⟩
      · intro x hx
        rcases List.mem_append.mp hx with h | h
        · exact hmL x h
        · exact hmP x h
      · simp [CallEvent.isUser]
      · simp only [acquireTokenAndProfile, hul, if_true, hlp]
        rw [heqP]
        simp [Nat.add_assoc, List.append_assoc]
  · simp only [acquireTokenAndProfile, hul, if_false, Bool.false_eq_true]
    cases ha : pyGet user_result "access" with
    | error e =>
      exact ⟨[(email, e)], 0, [], by simp, by simp, by simp [recordFail]⟩
    | ok access_token =>
      by_cases ht : access_token.truthy = true
      · obtain ⟨fnP, dpP, hmP, heqP⟩ :=
          create_user_profile_delta (env.profileResp i) user_id email access_token st
        exact ⟨fnP, dpP, [CallEvent.profile user_id access_token], hmP,
          by simp [CallEvent.isUser], by simp [ht, heqP]⟩
      · exact ⟨[(email, "Missing access token in creation response")], 0, [],
          by simp, by simp, by simp [ht]⟩

theorem processIdentity_delta (cfg : Config) (env : Env) (i : Int) (st : RunState) :
    ∃ (fn : List (String × String)) (du dp : Nat) (extra : List CallEvent),
      (∀ x ∈ fn, x.1 = emailOf cfg i) ∧
      (∀ c ∈ extra, c.isUser = false) ∧
      (cfg.create_profiles = false → dp = 0 ∧ extra = []) ∧
      processIdentity cfg env i st =
        { users_created := st.users_created + du,
          profiles_created := st.profiles_created + dp,
          failed := st.failed + fn.length + (if missing_id_case env i then 1 else 0),
          errors := st.errors ++ fn,
          calls := st.calls ++ CallEvent.user (emailOf cfg i) (passwordOf cfg i) :: extra } := by
  cases hu : env.userResp i with
  | exn e =>
    refine ⟨[(emailOf cfg i, e)], 0, 0, [], by simp, by simp, by simp, ?_⟩
    simp [processIdentity, missing_id_case, hu, recordFail]
  | resp status text body =>
    by_cases hs : (status == 200 || status == 201) = true
    · cases body with
      | error e =>
        refine ⟨[(emailOf cfg i, e)], 0, 0, [], by simp, by simp, by simp, ?_⟩
        simp [processIdentity, missing_id_case, hu, hs, recordFail]
      | ok result =>
        cases hr : pyGetD result "result" (Json.obj []) with
        | error e =>
          refine ⟨[(emailOf cfg i, e)], 0, 0, [], by simp, by simp, by simp, ?_⟩
          simp [processIdentity, missing_id_case, hu, hs, hr, recordFail]
        | ok user_result =>
          cases hid : pyGet user_result "id" with
          | error e =>
            refine ⟨[(emailOf cfg i, e)], 0, 0, [], by simp, by simp, by simp, ?_⟩
            simp [processIdentity, missing_id_case, hu, hs, hr, hid, recordFail]
          | ok user_id =>
            by_cases ht : user_id.truthy = true
            · by_cases hcp : cfg.create_profiles = true
              · obtain ⟨fnA, dpA, extraA, hmA, hxA, heqA⟩ :=
                  acquireTokenAndProfile_delta cfg env i (emailOf cfg i) (passwordOf cfg i)
                    user_result user_id
                    { users_created := st.users_created + 1,
                      profiles_created := st.profiles_created,
                      failed := st.failed,
                      errors := st.errors,
                      calls := st.calls ++ [CallEvent.user (emailOf cfg i) (passwordOf cfg i)] }
                refine ⟨fnA, 1, dpA, extraA, hmA, hxA, by simp [hcp], ?_⟩
                simp only [processIdentity, missing_id_case, hu, hs, hr, hid, ht, hcp]
                simp only [Bool.not_true, if_true, if_false, Bool.false_eq_true]
                simp [heqA, List.append_assoc]
              · refine ⟨[], 1, 0, [], by simp, by simp, by simp, ?_⟩
                simp [processIdentity, missing_id_case, hu, hs, hr, hid, ht, hcp]
            · refine ⟨[], 0, 0, [], by simp, by simp, by simp, ?_⟩
              simp [processIdentity, missing_id_case, hu, hs, hr, hid, ht]
    · by_cases h4 : (status == 400 && strContains (strLower text) "exist") = true
      · refine ⟨[], 0, 0, [], by simp, by simp, by simp, ?_⟩
        simp [processIdentity, missing_id_case, hu, hs, h4]
      · refine ⟨[(emailOf cfg i, text)], 0, 0, [], by simp, by simp, by simp, ?_⟩
        simp [processIdentity, missing_id_case, hu, hs, h4, recordFail]

/-
Step-level consequences of the delta lemma, and their propagation through
the loop.
-/

theorem processIdentity_mono (cfg : Config) (env : Env) (i : Int) (st : RunState) :
    st.users_created ≤ (processIdentity cfg env i st).users_created ∧
    st.profiles_created ≤ (processIdentity cfg env i st).profiles_created ∧
    st.failed ≤ (processIdentity cfg env i st).failed := by
  obtain ⟨fn, du, dp, extra, -, -, -, heq⟩ := processIdentity_delta cfg env i st
  rw [heq]
  dsimp only
  refine ⟨by omega, by omega, ?_⟩
  split <;> omega

theorem processIdentity_calls_user (cfg : Config) (env : Env) (i : Int) (st : RunState) :
    (processIdentity cfg env i st).calls.filter CallEvent.isUser
      = st.calls.filter CallEvent.isUser
        ++ [CallEvent.user (emailOf cfg i) (passwordOf cfg i)] := by
  obtain ⟨fn, du, dp, extra, -, hx, -, heq⟩ := processIdentity_delta cfg env i st
  rw [heq]
  dsimp only
  have hextra : extra.filter CallEvent.isUser = [] :=
    List.filter_eq_nil_iff.mpr (fun c hc => by simp [hx c hc])
  simp [List.filter_append, List.filter_cons, CallEvent.isUser, hextra]

theorem processIdentity_errors_le (cfg : Config) (env : Env) (i : Int) (st : RunState)
    (h : st.errors.length ≤ st.failed) :
    (processIdentity cfg env i st).errors.length ≤ (processIdentity cfg env i st).failed := by
  obtain ⟨fn, du, dp, extra, -, -, -, heq⟩ := processIdentity_delta cfg env i st
  rw [heq]
  dsimp only
  rw [List.length_append]
  split <;> omega

theorem processIdentity_no_profiles (cfg : Config) (env : Env) (i : Int) (st : RunState)
    (h : cfg.create_profiles = false) :
    (processIdentity cfg env i st).profiles_created = st.profiles_created ∧
    (processIdentity cfg env i st).calls.filter (fun c => c.isLogin || c.isProfile)
      = st.calls.filter (fun c => c.isLogin || c.isProfile) := by
  obtain ⟨fn, du, dp, extra, -, -, hnp, heq⟩ := processIdentity_delta cfg env i st
  obtain ⟨hdp, hex⟩ := hnp h
  rw [heq, hdp, hex]
  dsimp only
  exact ⟨rfl, by simp [List.filter_append, List.filter_cons, CallEvent.isLogin, CallEvent.isProfile]⟩

theorem foldl_calls_user (cfg : Config) (env : Env) (l : List Int) (st : RunState) :
    ((l.foldl (fun s i => processIdentity cfg env i s) st).calls.filter CallEvent.isUser)
      = st.calls.filter CallEvent.isUser
        ++ l.map (fun i => CallEvent.user (emailOf cfg i) (passwordOf cfg i)) := by
  induction l generalizing st with
  | nil => simp
  | cons i rest ih =>
    simp only [List.foldl_cons, List.map_cons]
    rw [ih, processIdentity_calls_user]
    simp

theorem run_calls_user (cfg : Config) (env : Env) :
    (run cfg env).calls.filter CallEvent.isUser
      = (runIndices cfg).map (fun i => CallEvent.user (emailOf cfg i) (passwordOf cfg i)) := by
  rw [run, foldl_calls_user]
  simp [initState]

theorem run_errors_le (cfg : Config) (env : Env) :
    (run cfg env).errors.length ≤ (run cfg env).failed := by
  rw [run]
  have key : ∀ (l : List Int) (st : RunState), st.errors.length ≤ st.failed →
      (l.foldl (fun s i => processIdentity cfg env i s) st).errors.length ≤
        (l.foldl (fun s i => processIdentity cfg env i s) st).failed := by
    intro l
    induction l with
    | nil => intro st h; simpa using h
    | cons i rest ih =>
      intro st h
      exact ih _ (processIdentity_errors_le cfg env i st h)
  exact key _ initState (by simp [initState])

theorem run_no_profiles (cfg : Config) (env : Env) (h : cfg.create_profiles = false) :
    (run cfg env).profiles_created = 0 ∧
    (run cfg env).calls.filter (fun c => c.isLogin || c.isProfile) = [] := by
  rw [run]
  have key : ∀ (l : List Int) (st : RunState),
      (l.foldl (fun s i => processIdentity cfg env i s) st).profiles_created
        = st.profiles_created ∧
      (l.foldl (fun s i => processIdentity cfg env i s) st).calls.filter
          (fun c => c.isLogin || c.isProfile)
        = st.calls.filter (fun c => c.isLogin || c.isProfile) := by
    intro l
    induction l with
    | nil => intro st; exact ⟨rfl, rfl⟩
    | cons i rest ih =>
      intro st
      obtain ⟨h1, h2⟩ := ih (processIdentity cfg env i st)
      obtain ⟨h3, h4⟩ := processIdentity_no_profiles cfg env i st h
      exact ⟨h1.trans h3, h2.trans h4⟩
  obtain ⟨h1, h2⟩ := key (runIndices cfg) initState
  exact ⟨by simpa [initState] using h1, by simpa [initState] using h2⟩

/-
Claim theorems.
-/

/-- Claim C6: short_text leaves a message whose length is at or under the
limit unchanged, and replaces a longer message by its first limit
characters followed by the trailing ellipsis marker. -/
theorem claim_short_text (text : String) (limit : Nat) :
    (text.length ≤ limit → short_text text limit = text) ∧
    (limit < text.length →
      (short_text text limit).toList = text.toList.take limit ++ "...".toList) := by
  constructor
  · intro h
    simp [short_text, h]
  · intro h
    rw [short_text, if_neg (by omega)]
    simp [String.toList]

/-- Witness for claim C6 at concrete inputs on both sides of the limit. -/
theorem claim_short_text_witness :
    short_text "hi" 5 = "hi" ∧
    (short_text "abcdef" 3).toList = "abcdef".toList.take 3 ++ "...".toList :=
  ⟨(claim_short_text "hi" 5).1 (by decide), (claim_short_text "abcdef" 3).2 (by decide)⟩

/-- Claim C2: a 200/201 user-creation response whose nested result object
lacks an id field increments failed exactly once, leaves users_created,
profiles_created and errors untouched, and issues no further call for
that identity. -/
theorem claim_missing_id (cfg : Config) (env : Env) (i : Int) (st : RunState)
    (status : Nat) (text : String) (data user_result : Json) (fs : List (String × Json))
    (henv : env.userResp i = Transport.resp status text (Except.ok data))
    (hst : status = 200 ∨ status = 201)
    (hres : pyGetD data "result" (Json.obj []) = Except.ok user_result)
    (hobj : user_result = Json.obj fs)
    (hid : lookupField fs "id" = none) :
    processIdentity cfg env i st =
      { st with failed := st.failed + 1,
                calls := st.calls ++ [CallEvent.user (emailOf cfg i) (passwordOf cfg i)] } := by
  subst hobj
  have hpy : pyGet (Json.obj fs) "id" = Except.ok Json.null := by
    simp [pyGet, hid]
  have hs : (status == 200 || status == 201) = true := by
    rcases hst with h | h <;> simp [h]
  simp [processIdentity, henv, hs, hres, hpy, Json.truthy]

/-- Witness for claim C2: a concrete 200 response with an empty result
object yields exactly one failed increment and no further calls. -/
theorem claim_missing_id_witness :
    processIdentity cfgW envMissingId 1 initState =
      { initState with
          failed := initState.failed + 1,
          calls := initState.calls ++ [CallEvent.user (emailOf cfgW 1) (passwordOf cfgW 1)] } :=
  claim_missing_id cfgW envMissingId 1 initState 200 "created without id"
    (Json.obj [("result", Json.obj [])]) (Json.obj []) [] rfl (Or.inl rfl) rfl rfl rfl

/-- Claim C3: a 400 user-creation response whose body contains the
substring exist (case-insensitively) changes no counter, appends no error
record, and issues no login or profile call for that identity. -/
theorem claim_exists_skip (cfg : Config) (env : Env) (i : Int) (st : RunState)
    (text : String) (body : Except String Json)
    (henv : env.userResp i = Transport.resp 400 text body)
    (hex : strContains (strLower text) "exist" = true) :
    processIdentity cfg env i st =
      { st with calls := st.calls ++ [CallEvent.user (emailOf cfg i) (passwordOf cfg i)] } := by
  simp [processIdentity, henv, hex]

/-- Witness for claim C3 at a concrete already-exists response. -/
theorem claim_exists_skip_witness :
    processIdentity cfgW envUserExists 1 initState =
      { initState with
          calls := initState.calls ++ [CallEvent.user (emailOf cfgW 1) (passwordOf cfgW 1)] } :=
  claim_exists_skip cfgW envUserExists 1 initState "User already exists"
    (Except.ok Json.null) rfl (by decide)

/-- Claim C9: a 200/201 creation response whose result object binds id to
a falsy value (the integer 0, or the empty string) is treated exactly
like a missing id: failed is incremented, users_created is not, and no
further call is issued for that identity. -/
theorem claim_falsy_id (cfg : Config) (i : Int) (st : RunState) :
    processIdentity cfg envFalsyIdNum i st =
      { st with failed := st.failed + 1,
                calls := st.calls ++ [CallEvent.user (emailOf cfg i) (passwordOf cfg i)] } ∧
    processIdentity cfg envFalsyIdStr i st =
      { st with failed := st.failed + 1,
                calls := st.calls ++ [CallEvent.user (emailOf cfg i) (passwordOf cfg i)] } := by
  constructor <;>
    simp [processIdentity, envFalsyIdNum, envFalsyIdStr, pyGetD, pyGet, lookupField,
      Json.truthy]

/-- Claim C1 (amended): every failure recorded while processing one
identity, other than the missing-id case, appends exactly one error record
pairing the email of that identity with the full, untruncated message;
the missing-id case increments failed without appending a record.  In
particular, on any status that is neither 2xx nor the 400-exists skip,
exactly one record is appended and its message is the whole response
body. -/
theorem claim_failure_recording_amended :
    (∀ (cfg : Config) (env : Env) (i : Int) (st : RunState),
      ∃ fn : List (String × String),
        (∀ x ∈ fn, x.1 = emailOf cfg i) ∧
        (processIdentity cfg env i st).errors = st.errors ++ fn ∧
        (processIdentity cfg env i st).failed
          = st.failed + fn.length + (if missing_id_case env i then 1 else 0)) ∧
    (∀ (cfg : Config) (env : Env) (i : Int) (st : RunState) (status : Nat)
        (text : String) (body : Except String Json),
      env.userResp i = Transport.resp status text body →
      status ≠ 200 → status ≠ 201 →
      ¬(status = 400 ∧ strContains (strLower text) "exist" = true) →
      (processIdentity cfg env i st).errors = st.errors ++ [(emailOf cfg i, text)] ∧
      (processIdentity cfg env i st).failed = st.failed + 1) := by
  constructor
  · intro cfg env i st
    obtain ⟨fn, du, dp, extra, hm, -, -, heq⟩ := processIdentity_delta cfg env i st
    exact ⟨fn, hm, by rw [heq], by rw [heq]⟩
  · intro cfg env i st status text body henv h200 h201 hne
    have hs : (status == 200 || status == 201) = false := by
      simp [Bool.or_eq_false_iff, beq_eq_false_iff_ne, h200, h201]
    have h4 : (status == 400 && strContains (strLower text) "exist") = false := by
      by_cases h : status = 400
      · subst h
        have hc : strContains (strLower text) "exist" = false := by
          cases hcc : strContains (strLower text) "exist"
          · rfl
          · exact absurd ⟨rfl, hcc⟩ hne
        simp [hc]
      · have hb : (status == 400) = false := by
          simp [beq_eq_false_iff_ne, h]
        simp [hb]
    constructor <;> simp [processIdentity, henv, hs, h4, recordFail]

/-- Witness for the amended claim C1: a concrete 500 response appends
exactly one record carrying the whole body. -/
theorem claim_failure_recording_amended_witness :
    (processIdentity cfgW envMissingIdThenServerError 2 initState).errors
      = initState.errors ++ [(emailOf cfgW 2, longText)] ∧
    (processIdentity cfgW envMissingIdThenServerError 2 initState).failed
      = initState.failed + 1 :=
  claim_failure_recording_amended.2 cfgW envMissingIdThenServerError 2 initState
    500 longText (Except.ok Json.null) rfl (by decide) (by decide) (by decide)

set_option maxRecDepth 8000 in
/-- Counterexample to claim C1 as stated: on a run where identity 1 gets a
2xx creation response without an id and identity 2 gets a long 500
response, failed reaches 2 while only one error record exists — the
missing-id failure appended nothing — so the error list cannot pair each
increment of failed with one record; moreover the single stored record
holds the full response body, which differs from its truncation. -/
theorem claim_failure_recording_counterexample :
    (create_test_users cfgW envMissingIdThenServerError).failed = 2 ∧
    (create_test_users cfgW envMissingIdThenServerError).errors
      = [(emailOf cfgW 2, longText)] ∧
    ¬((create_test_users cfgW envMissingIdThenServerError).errors.length
        = (create_test_users cfgW envMissingIdThenServerError).failed) ∧
    short_text longText 200 ≠ longText := by
  refine ⟨?_, ?_, ?_, ?_⟩ <;> decide

/-- Claim C7: when user creation succeeds with an id but the login call
(in login-token mode) returns a non-2xx status, users_created is
incremented, profiles_created is not, failed is incremented exactly once,
and the error list gains the pair of that email with the login response
text. -/
theorem claim_login_failure (cfg : Config) (env : Env) (i : Int) (st : RunState)
    (ustatus : Nat) (utext : String) (data user_result user_id : Json)
    (lstatus : Nat) (ltext : String) (lbody : Except String Json)
    (hcp : cfg.create_profiles = true) (hul : cfg.use_login_token = true)
    (henv : env.userResp i = Transport.resp ustatus utext (Except.ok data))
    (hst : ustatus = 200 ∨ ustatus = 201)
    (hres : pyGetD data "result" (Json.obj []) = Except.ok user_result)
    (hid : pyGet user_result "id" = Except.ok user_id)
    (ht : user_id.truthy = true)
    (hlenv : env.loginResp i = Transport.resp lstatus ltext lbody)
    (hl200 : lstatus ≠ 200) (hl201 : lstatus ≠ 201) :
    (processIdentity cfg env i st).users_created = st.users_created + 1 ∧
    (processIdentity cfg env i st).profiles_created = st.profiles_created ∧
    (processIdentity cfg env i st).failed = st.failed + 1 ∧
    (processIdentity cfg env i st).errors = st.errors ++ [(emailOf cfg i, ltext)] := by
  have hs : (ustatus == 200 || ustatus == 201) = true := by
    rcases hst with h | h <;> simp [h]
  have hls : (lstatus == 200 || lstatus == 201) = false := by
    simp [Bool.or_eq_false_iff, beq_eq_false_iff_ne, hl200, hl201]
  refine ⟨?_, ?_, ?_, ?_⟩ <;>
    simp [processIdentity, henv, hs, hres, hid, ht, hcp, hul, acquireTokenAndProfile,
      login_user, hlenv, hls, recordFail]

/-- Witness for claim C7 at a concrete rejected login. -/
theorem claim_login_failure_witness :
    (processIdentity cfgW envLoginRejected 1 initState).users_created
      = initState.users_created + 1 ∧
    (processIdentity cfgW envLoginRejected 1 initState).profiles_created
      = initState.profiles_created ∧
    (processIdentity cfgW envLoginRejected 1 initState).failed = initState.failed + 1 ∧
    (processIdentity cfgW envLoginRejected 1 initState).errors
      = initState.errors ++ [(emailOf cfgW 1, "invalid credentials")] :=
  claim_login_failure cfgW envLoginRejected 1 initState 201 "created" goodUserBody
    (Json.obj [("id", Json.num 7)]) (Json.num 7) 401 "invalid credentials"
    (Except.ok Json.null) rfl rfl rfl (Or.inr rfl) rfl rfl rfl rfl
    (by decide) (by decide)

/-- Claim C4: for count N at starting index START the run issues exactly
one user-creation request per index START through START+N-1, in order,
whatever the network answers. -/
theorem claim_attempts_all (cfg : Config) (env : Env) (n : Nat)
    (h : cfg.count = (n : Int)) :
    (run cfg env).calls.filter CallEvent.isUser
      = (List.range n).map (fun (k : Nat) =>
          CallEvent.user (emailOf cfg (cfg.start + (k : Int)))
            (passwordOf cfg (cfg.start + (k : Int)))) ∧
    ((run cfg env).calls.filter CallEvent.isUser).length = n := by
  have hn : cfg.count.toNat = n := by rw [h]; exact Int.toNat_natCast n
  have h1 := run_calls_user cfg env
  rw [runIndices, hn, List.map_map] at h1
  have hmain : (run cfg env).calls.filter CallEvent.isUser
      = (List.range n).map (fun (k : Nat) =>
          CallEvent.user (emailOf cfg (cfg.start + (k : Int)))
            (passwordOf cfg (cfg.start + (k : Int)))) := by
    rw [h1]
    rfl
  refine ⟨hmain, ?_⟩
  rw [hmain]
  simp

/-- Witness for claim C4: two identities are attempted when COUNT is 2,
even when every request raises. -/
theorem claim_attempts_all_witness :
    ((run cfgW envAllFail).calls.filter CallEvent.isUser
      = (List.range 2).map (fun (k : Nat) =>
          CallEvent.user (emailOf cfgW (cfgW.start + (k : Int)))
            (passwordOf cfgW (cfgW.start + (k : Int))))) ∧
    ((run cfgW envAllFail).calls.filter CallEvent.isUser).length = 2 :=
  claim_attempts_all cfgW envAllFail 2 rfl

/-- Claim C5: with CREATE_PROFILES off, profiles_created of the returned
summary is 0 and no login or profile request is ever issued, whatever the
network answers. -/
theorem claim_profiles_disabled (cfg : Config) (env : Env)
    (h : cfg.create_profiles = false) :
    (create_test_users cfg env).profiles_created = 0 ∧
    (run cfg env).calls.filter (fun c => c.isLogin || c.isProfile) = [] := by
  obtain ⟨h1, h2⟩ := run_no_profiles cfg env h
  exact ⟨by simpa [create_test_users, RunState.summary] using h1, h2⟩

/-- Witness for claim C5 on a network where every call would succeed. -/
theorem claim_profiles_disabled_witness :
    (create_test_users cfgNoProfiles envAllGood).profiles_created = 0 ∧
    (run cfgNoProfiles envAllGood).calls.filter (fun c => c.isLogin || c.isProfile) = [] :=
  claim_profiles_disabled cfgNoProfiles envAllGood rfl

/-- Claim C8: no step of processing an identity decreases users_created,
profiles_created or failed, and every identity of the range is attempted
regardless of network outcomes. -/
theorem claim_monotone_counters (cfg : Config) (env : Env) :
    (∀ (i : Int) (st : RunState),
      st.users_created ≤ (processIdentity cfg env i st).users_created ∧
      st.profiles_created ≤ (processIdentity cfg env i st).profiles_created ∧
      st.failed ≤ (processIdentity cfg env i st).failed) ∧
    (run cfg env).calls.filter CallEvent.isUser
      = (runIndices cfg).map (fun i => CallEvent.user (emailOf cfg i) (passwordOf cfg i)) :=
  ⟨fun i st => processIdentity_mono cfg env i st, run_calls_user cfg env⟩

/-- Claim C10: processing an identity preserves the bound that the error
list is at most as long as the failed counter, and the returned summary
satisfies that bound. -/
theorem claim_errors_bounded (cfg : Config) (env : Env) :
    (∀ (i : Int) (st : RunState), st.errors.length ≤ st.failed →
      (processIdentity cfg env i st).errors.length
        ≤ (processIdentity cfg env i st).failed) ∧
    (create_test_users cfg env).errors.length ≤ (create_test_users cfg env).failed :=
  ⟨fun i st h => processIdentity_errors_le cfg env i st h,
   by simpa [create_test_users, RunState.summary] using run_errors_le cfg env⟩

/-- Witness for claim C10 on the all-failing network. -/
theorem claim_errors_bounded_witness :
    (processIdentity cfgW envAllFail 1 initState).errors.length
      ≤ (processIdentity cfgW envAllFail 1 initState).failed ∧
    (create_test_users cfgW envAllFail).errors.length
      ≤ (create_test_users cfgW envAllFail).failed :=
  ⟨(claim_errors_bounded cfgW envAllFail).1 1 initState (by decide),
   (claim_errors_bounded cfgW envAllFail).2⟩

end TestUserCreator
